import Mathlib

/-!
Verification of the client-side generation-session state machine of the
Builder.ai frontend: the Zustand generation slice (`createGenerationSlice`)
and the native WebSocket channel service (`websocket-native.ts`).

The TypeScript code is shallowly embedded: each store action becomes a pure
function on an explicit `StoreState`; JavaScript `Date` values become `Nat`
instants passed in as a `now` parameter; JavaScript `x || d` defaulting is
modelled by `jsOrString` / `jsOrInt` / `jsOrNat`, which treat the absent
value and the falsy values (empty string, zero) exactly as `||` does.
-/

set_option autoImplicit false

namespace BuilderAi

/-- Lifecycle status, shared by sessions and steps:
pending, in_progress, completed, failed (from types/generation). -/
inductive GenStatus
  | pending
  | in_progress
  | completed
  | failed
deriving DecidableEq, Repr

/-- Optional nested contact block of `BusinessData`. -/
structure ContactInfo where
  email : Option String
  phone : Option String
  address : Option String
deriving DecidableEq, Repr

/-- The business descriptor collected by the wizard (`BusinessData`). -/
structure BusinessData where
  businessName : String
  businessDescription : String
  businessCategory : String
  targetAudience : String
  websitePurpose : String
  contactInfo : Option ContactInfo
  additionalInfo : Option String
deriving DecidableEq, Repr

/-- One phase record of a session (`GenerationStep`). -/
structure GenerationStep where
  id : String
  name : String
  status : GenStatus
  progress : Int
  startedAt : Option Nat
  completedAt : Option Nat
  error : Option String
deriving DecidableEq, Repr

/-- Structured error attached on failure (`GenerationError`). -/
structure GenerationError where
  message : String
  code : String
  details : Option String
deriving DecidableEq, Repr

/-- The completion payload the channel passes to `completeGeneration`
(`{generationId, websiteData, qualityScore}` in websocket-native.ts).
`websiteData` is an opaque JSON blob, kept as its text. -/
structure CompletionPayload where
  generationId : String
  websiteData : String
  qualityScore : Int
deriving DecidableEq, Repr

/-- One generation session (`GenerationState` in types/generation). -/
structure GenerationState where
  id : String
  status : GenStatus
  progress : Int
  startedAt : Nat
  completedAt : Option Nat
  businessData : BusinessData
  steps : List GenerationStep
  result : Option CompletionPayload
  error : Option GenerationError
deriving DecidableEq, Repr

/-- Decoded progress event (`GenerationProgress` in types/generation). -/
structure GenerationProgress where
  generationId : String
  progress : Int
  step : String
  stepProgress : Int
  message : String
  timestamp : Nat
deriving DecidableEq, Repr

/-- The slice of the Zustand store owned by `createGenerationSlice`. -/
structure StoreState where
  currentGeneration : Option GenerationState
  generationHistory : List GenerationState
  isGenerating : Bool
  wsConnected : Bool
deriving DecidableEq, Repr

/-- Initial slice state: no current generation, empty history, flags false. -/
def initialStoreState : StoreState :=
  { currentGeneration := none
    generationHistory := []
    isGenerating := false
    wsConnected := false }

/-- JavaScript `x || d` on an optional string: the absent value and the
empty string are falsy, so both select the default. -/
def jsOrString (x : Option String) (d : String) : String :=
  match x with
  | some s => if s = "" then d else s
  | none => d

/-- JavaScript `x || d` on an optional number: absent and `0` are falsy. -/
def jsOrInt (x : Option Int) (d : Int) : Int :=
  match x with
  | some n => if n = 0 then d else n
  | none => d

/-- JavaScript truthiness test `x ? x : d` on an optional instant:
absent and `0` are falsy. -/
def jsOrNat (x : Option Nat) (d : Nat) : Nat :=
  match x with
  | some n => if n = 0 then d else n
  | none => d

/-- The fixed phase set built by `startGeneration`: content, design,
structure, quality, each `pending` at progress 0. -/
def initialSteps : List GenerationStep :=
  [ { id := "content", name := "Content Generation", status := .pending,
      progress := 0, startedAt := none, completedAt := none, error := none },
    { id := "design", name := "Design System", status := .pending,
      progress := 0, startedAt := none, completedAt := none, error := none },
    { id := "structure", name := "Website Structure", status := .pending,
      progress := 0, startedAt := none, completedAt := none, error := none },
    { id := "quality", name := "Quality Check", status := .pending,
      progress := 0, startedAt := none, completedAt := none, error := none } ]

/-- The creation response as consumed by `startGeneration`: only its
`generation_id` field is read, and it may be absent. -/
structure StartGenerationResponse where
  generation_id : Option String
deriving DecidableEq, Repr

/-- Success path of `startGeneration`: `set({isGenerating: true})`, then the
API call succeeds with `resp`; the session id is
`response.generation_id || uuidv4()` (the fresh UUID is passed in as
`uuid`); a new in-progress session with the fixed phase set replaces
`currentGeneration`. `isGenerating` stays true. -/
def startGenerationSuccess (businessData : BusinessData)
    (resp : StartGenerationResponse) (uuid : String) (now : Nat)
    (s : StoreState) : StoreState :=
  let s1 := { s with isGenerating := true }
  let generationId := jsOrString resp.generation_id uuid
  let newGeneration : GenerationState :=
    { id := generationId
      status := .in_progress
      progress := 0
      startedAt := now
      completedAt := none
      businessData := businessData
      steps := initialSteps
      result := none
      error := none }
  { s1 with currentGeneration := some newGeneration }

/-- Generic creation-failure message used when no server detail is usable. -/
def genericStartFailureMessage : String := "Failed to start website generation"

/-- Failure path of `startGeneration`: `set({isGenerating: true})`, the API
call rejects carrying `apiError?.response?.data?.detail` (`detail` here,
`none` when the shape is missing); the thrown message is
`detail` defaulted through `||` to the generic message; the outer catch runs
`set({isGenerating: false})` and rethrows. Returns the resulting state and
the rejection message. -/
def startGenerationFailure (detail : Option String) (s : StoreState) :
    StoreState × String :=
  let s1 := { s with isGenerating := true }
  let errorMessage := jsOrString detail genericStartFailureMessage
  ({ s1 with isGenerating := false }, errorMessage)

/-- `updateProgress`: early return when there is no current generation;
otherwise copy the session with the new overall `progress` and map over the
steps, switching the step whose id matches `progress.step` to
`in_progress` with the reported `stepProgress`. -/
def updateProgress (progress : GenerationProgress) (s : StoreState) :
    StoreState :=
  match s.currentGeneration with
  | none => s
  | some current =>
    let updatedGeneration : GenerationState :=
      { current with
        progress := progress.progress
        steps := current.steps.map fun step =>
          if step.id = progress.step then
            { step with status := .in_progress, progress := progress.stepProgress }
          else step }
    { s with currentGeneration := some updatedGeneration }

/-- `completeGeneration`: early return when there is no current generation;
otherwise mark the session completed at progress 100 with `completedAt`
stamped, attach the result, mark every step completed at progress 100, put
the completed session back as current, cons it onto `generationHistory`
(the source spreads the old history after it), and clear `isGenerating`. -/
def completeGeneration (result : CompletionPayload) (now : Nat)
    (s : StoreState) : StoreState :=
  match s.currentGeneration with
  | none => s
  | some current =>
    let completedGeneration : GenerationState :=
      { current with
        status := .completed
        progress := 100
        completedAt := some now
        result := some result
        steps := current.steps.map fun step =>
          { step with status := .completed, progress := 100, completedAt := some now } }
    { s with
      currentGeneration := some completedGeneration
      generationHistory := completedGeneration :: s.generationHistory
      isGenerating := false }

/-- `failGeneration`: early return when there is no current generation;
otherwise mark the session failed, attach the error, stamp `completedAt`,
and clear `isGenerating`. Steps, progress, result and history are untouched. -/
def failGeneration (error : GenerationError) (now : Nat) (s : StoreState) :
    StoreState :=
  match s.currentGeneration with
  | none => s
  | some current =>
    let failedGeneration : GenerationState :=
      { current with
        status := .failed
        error := some error
        completedAt := some now }
    { s with
      currentGeneration := some failedGeneration
      isGenerating := false }

/-- `cancelGeneration`: early return when there is no current generation;
otherwise fire the remote cancel (its promise rejection is only logged by
the attached catch handler, so its outcome `remoteCancelSucceeds` cannot
influence the store) and clear the current generation and the flag. -/
def cancelGeneration (remoteCancelSucceeds : Bool) (s : StoreState) :
    StoreState :=
  match s.currentGeneration with
  | none => s
  | some _ =>
    { s with
      currentGeneration := none
      isGenerating := false }

/-- `clearCurrentGeneration`: unconditional local reset of the current
session and the generating flag. -/
def clearCurrentGeneration (s : StoreState) : StoreState :=
  { s with
    currentGeneration := none
    isGenerating := false }

/-- `setWsConnected`: store the connectivity flag. -/
def setWsConnected (connected : Bool) (s : StoreState) : StoreState :=
  { s with wsConnected := connected }

/-!
The message decoder of `websocket-native.ts` (`socket.onmessage`): a parsed
inbound frame is a JSON object with a `type` discriminator; every other
field it reads is optional. Numeric fields are `Option Int`, the timestamp
is an `Option Nat` instant, payload blobs stay as text.
-/

/-- A parsed inbound frame: the `type` discriminator plus the optional
fields the handler actually reads. -/
structure InboundFrame where
  type : String
  generation_id : Option String
  progress : Option Int
  step : Option String
  step_progress : Option Int
  message : Option String
  timestamp : Option Nat
  final_website : Option String
  quality_score : Option Int
  code : Option String
  details : Option String
deriving DecidableEq, Repr

/-- A frame with every optional field absent, to build concrete frames from. -/
def emptyFrame (t : String) : InboundFrame :=
  { type := t
    generation_id := none
    progress := none
    step := none
    step_progress := none
    message := none
    timestamp := none
    final_website := none
    quality_score := none
    code := none
    details := none }

/-- Text of the empty JSON object, the `final_website` fallback. -/
def emptyObjectText : String := "\x7b\x7d"

/-- Decoding of a `progress_update` frame into a `GenerationProgress`
event, with the defaulting the handler performs:
generation_id defaulted through `||` to the service-held id and then the
empty string, progress to 0, step to the text Unknown, step_progress to
the frame progress and then 0, message to the empty string, and the
timestamp by truthiness test to the receipt instant `receivedAt`. -/
def decodeProgressUpdate (data : InboundFrame)
    (serviceGenerationId : Option String) (receivedAt : Nat) :
    GenerationProgress :=
  { generationId := jsOrString data.generation_id (jsOrString serviceGenerationId "")
    progress := jsOrInt data.progress 0
    step := jsOrString data.step "Unknown"
    stepProgress := jsOrInt data.step_progress (jsOrInt data.progress 0)
    message := jsOrString data.message ""
    timestamp := jsOrNat data.timestamp receivedAt }

/-- The `switch (data.type)` dispatch in `socket.onmessage`: `connection`
and `pong` frames and unhandled types leave the store alone;
`progress_update` folds the decoded event through `updateProgress`;
`generation_complete` builds the completion payload and folds it through
`completeGeneration`; `error` builds a `GenerationError` (message
defaulting to the text Unknown error, code to ERROR, details to the empty
string) and folds it through `failGeneration`. -/
def handleMessage (data : InboundFrame) (serviceGenerationId : Option String)
    (receivedAt : Nat) (s : StoreState) : StoreState :=
  if data.type = "connection" then s
  else if data.type = "progress_update" then
    updateProgress (decodeProgressUpdate data serviceGenerationId receivedAt) s
  else if data.type = "generation_complete" then
    completeGeneration
      { generationId := jsOrString data.generation_id (jsOrString serviceGenerationId "")
        websiteData := jsOrString data.final_website emptyObjectText
        qualityScore := jsOrInt data.quality_score 0 } receivedAt s
  else if data.type = "error" then
    failGeneration
      { message := jsOrString data.message "Unknown error"
        code := jsOrString data.code "ERROR"
        details := some (jsOrString data.details "") } receivedAt s
  else s

/-!
Reconnection policy of `websocket-native.ts` (`handleReconnect`): a counter
of reconnect attempts, reset to zero by `onopen`, drives either the
scheduling of a delayed reconnect or the terminal `CONNECTION_LOST`
failure.
-/

/-- `maxReconnectAttempts = 5`. -/
def maxReconnectAttempts : Nat := 5

/-- `reconnectInterval = 1000` milliseconds. -/
def reconnectInterval : Nat := 1000

/-- The terminal connectivity error reported when reconnection is
exhausted. -/
def connectionLostError : GenerationError :=
  { message := "Connection to the server lost"
    code := "CONNECTION_LOST"
    details := some "Unable to reconnect to the server after multiple attempts" }

/-- What one invocation of `handleReconnect` does besides updating the
attempt counter: schedule a retry after a delay, or report the terminal
failure into the store. -/
inductive ReconnectEffect
  | scheduleRetry (delayMs : Nat)
  | reportFailure (error : GenerationError)
deriving DecidableEq, Repr

/-- `handleReconnect`: when fewer than `maxReconnectAttempts` attempts have
been used, increment the counter and schedule a reconnect after
`reconnectInterval * 2 ^ (attempt - 1)` ms; otherwise report the terminal
`CONNECTION_LOST` failure (which the source feeds to `failGeneration`). -/
def handleReconnect (reconnectAttempts : Nat) : Nat × ReconnectEffect :=
  if reconnectAttempts < maxReconnectAttempts then
    let attempts := reconnectAttempts + 1
    (attempts, .scheduleRetry (reconnectInterval * 2 ^ (attempts - 1)))
  else
    (reconnectAttempts, .reportFailure connectionLostError)

/-- Attempt counter after `n` consecutive unexpected closures starting from
a fresh (or just-reopened) channel, with no successful `onopen` in between. -/
def attemptsAfterClosures : Nat → Nat
  | 0 => 0
  | n + 1 => (handleReconnect (attemptsAfterClosures n)).1

/-- Effect of the `n`-th consecutive closure (1-based). -/
def nthClosureEffect (n : Nat) : ReconnectEffect :=
  (handleReconnect (attemptsAfterClosures (n - 1))).2

/-!
Operation-sequence machinery: every mutation of the generation slice is one
of these operations, so reachable store states are folds of operation lists
over the initial state.
-/

/-- One store mutation, with the data it consumes. The two `start` variants
are the success and failure paths of `startGeneration`. -/
inductive StoreOp
  | startSuccess (businessData : BusinessData) (resp : StartGenerationResponse)
      (uuid : String) (now : Nat)
  | startFailure (detail : Option String)
  | progress (p : GenerationProgress)
  | complete (result : CompletionPayload) (now : Nat)
  | fail (error : GenerationError) (now : Nat)
  | cancel (remoteCancelSucceeds : Bool)
  | clear
  | setWs (connected : Bool)

/-- Interpretation of one operation on the store. -/
def applyOp : StoreOp → StoreState → StoreState
  | .startSuccess businessData resp uuid now, s =>
      startGenerationSuccess businessData resp uuid now s
  | .startFailure detail, s => (startGenerationFailure detail s).1
  | .progress p, s => updateProgress p s
  | .complete result now, s => completeGeneration result now s
  | .fail error now, s => failGeneration error now s
  | .cancel remoteCancelSucceeds, s => cancelGeneration remoteCancelSucceeds s
  | .clear, s => clearCurrentGeneration s
  | .setWs connected, s => setWsConnected connected s

/-- Fold a list of operations over a store state, oldest first. -/
def applyOps (ops : List StoreOp) (s : StoreState) : StoreState :=
  ops.foldl (fun acc op => applyOp op acc) s

/-- Does the operation run `completeGeneration`? -/
def isCompleteOp : StoreOp → Bool
  | .complete _ _ => true
  | _ => false

/-!
Concrete fixtures used to evaluate the embedded operations on explicit
inputs.
-/

/-- A concrete business descriptor. -/
def sampleBusinessData : BusinessData :=
  { businessName := "Acme Bakery"
    businessDescription := "A neighbourhood bakery"
    businessCategory := "food"
    targetAudience := "locals"
    websitePurpose := "marketing"
    contactInfo := none
    additionalInfo := none }

/-- A creation response carrying the backend-assigned id g1. -/
def sampleResponse : StartGenerationResponse := { generation_id := some "g1" }

/-- A concrete completion payload. -/
def samplePayload : CompletionPayload :=
  { generationId := "g1", websiteData := "site", qualityScore := 92 }

/-- A concrete failure report. -/
def sampleError : GenerationError :=
  { message := "agent crashed", code := "GENERATION_FAILED", details := none }

/-- A progress event naming the step `content`. -/
def reopenEvent : GenerationProgress :=
  { generationId := "g1"
    progress := 40
    step := "content"
    stepProgress := 80
    message := ""
    timestamp := 11 }

/-- Store state right after a successful `startGeneration` on the initial
state. -/
def startedState : StoreState :=
  startGenerationSuccess sampleBusinessData sampleResponse "u1" 0 initialStoreState

/-- The session `startedState` is tracking, spelled out. -/
def startedSession : GenerationState :=
  { id := "g1"
    status := .in_progress
    progress := 0
    startedAt := 0
    completedAt := none
    businessData := sampleBusinessData
    steps := initialSteps
    result := none
    error := none }

/-- Store state after the session of `startedState` has completed at
instant 10. -/
def completedState : StoreState := completeGeneration samplePayload 10 startedState

/-- The completed session held by `completedState`, spelled out. -/
def completedSession : GenerationState :=
  { id := "g1"
    status := .completed
    progress := 100
    startedAt := 0
    completedAt := some 10
    businessData := sampleBusinessData
    steps := initialSteps.map fun step =>
      { step with status := .completed, progress := 100, completedAt := some 10 }
    result := some samplePayload
    error := none }

/-- An already-retired session sitting in the history list. -/
def priorSession : GenerationState :=
  { id := "g0"
    status := .completed
    progress := 100
    startedAt := 0
    completedAt := some 1
    businessData := sampleBusinessData
    steps := []
    result := none
    error := none }

/-- A running store whose history already holds `priorSession`. -/
def historyState : StoreState :=
  { startedState with generationHistory := [priorSession] }

/-- A progress event naming a step id outside the fixed phase set. -/
def unknownStepEvent : GenerationProgress :=
  { generationId := "g1"
    progress := 55
    step := "deployment"
    stepProgress := 10
    message := ""
    timestamp := 3 }

/-!
Theorems settling the claims.
-/

/-- C1. The spec demands monotonic terminality, but the slice has no
terminal-state guard: on a session already `completed`, a later
`updateProgress` naming step `content` flips that step back to
`in_progress`, and a later `failGeneration` flips the session status from
`completed` to `failed`. This theorem evaluates the embedded code at that
failing input. -/
theorem updateProgress_reopens_step_after_completion :
  completedState.currentGeneration.map GenerationState.status = some GenStatus.completed ∧
  ((updateProgress reopenEvent completedState).currentGeneration.elim false fun g =>
    g.steps.any fun st =>
      decide (st.id = "content") && decide (st.status = GenStatus.in_progress)) = true ∧
  (failGeneration sampleError 12 completedState).currentGeneration.map GenerationState.status
    = some GenStatus.failed := by decide

/-- C6. The spec demands that `result` and `error` never both be set, but a
`failGeneration` arriving after `completeGeneration` keeps the attached
result (the source spreads the current session) while adding the error:
the state reached through start, complete, fail holds a session with both
fields set. -/
theorem completed_then_failed_sets_result_and_error :
  (applyOps [StoreOp.startSuccess sampleBusinessData sampleResponse "u1" 0,
             StoreOp.complete samplePayload 10,
             StoreOp.fail sampleError 12] initialStoreState).currentGeneration
    = (failGeneration sampleError 12 completedState).currentGeneration ∧
  ((failGeneration sampleError 12 completedState).currentGeneration.elim false fun g =>
    g.result.isSome && g.error.isSome) = true := by decide

/-- C2. Backoff schedule: the n-th consecutive unexpected closure
(1 ≤ n ≤ 5) schedules a retry after 1000 * 2 ^ (n - 1) ms; the closure
after the fifth failed attempt schedules nothing and instead reports the
terminal CONNECTION_LOST error, which `failGeneration` turns into a failed
session carrying that error. -/
theorem handleReconnect_backoff_schedule (n : Nat) (h1 : 1 ≤ n) (h2 : n ≤ 5) :
  nthClosureEffect n = ReconnectEffect.scheduleRetry (1000 * 2 ^ (n - 1)) ∧
  nthClosureEffect 6 = ReconnectEffect.reportFailure connectionLostError ∧
  connectionLostError.code = "CONNECTION_LOST" ∧
  (∀ t s, s.currentGeneration.isSome = true →
    (failGeneration connectionLostError t s).currentGeneration.map GenerationState.status
      = some GenStatus.failed ∧
    (failGeneration connectionLostError t s).currentGeneration.map GenerationState.error
      = some (some connectionLostError)) := by
  refine ⟨?_, by decide, by decide, ?_⟩
  · interval_cases n <;> decide
  · intro t s hs
    match hc : s.currentGeneration with
    | none => simp [hc] at hs
    | some g => simp [failGeneration, hc]

/-- C2 witness: the third closure schedules a 4000 ms retry, and the
CONNECTION_LOST error fed to `failGeneration` on a live store marks the
session failed. -/
theorem handleReconnect_backoff_schedule_witness :
  (1 ≤ 3 ∧ 3 ≤ 5) ∧
  nthClosureEffect 3 = ReconnectEffect.scheduleRetry (1000 * 2 ^ (3 - 1)) ∧
  (failGeneration connectionLostError 9 startedState).currentGeneration.map
    GenerationState.status = some GenStatus.failed := by
  have h := handleReconnect_backoff_schedule 3 (by decide) (by decide)
  exact ⟨⟨by decide, by decide⟩, h.1, (h.2.2.2 9 startedState (by decide)).1⟩

/-- C3 counterexample: on a store whose history is nonempty, completion
places the finalized session at the head of the history list, not at its
end, so the finalized session is prepended rather than appended. -/
theorem completeGeneration_prepends_history :
  (completeGeneration samplePayload 5 historyState).generationHistory.head?
    = (completeGeneration samplePayload 5 historyState).currentGeneration ∧
  (completeGeneration samplePayload 5 historyState).generationHistory.getLast?
    ≠ (completeGeneration samplePayload 5 historyState).currentGeneration ∧
  historyState.generationHistory ≠ [] := by decide

/-- C4 counterexample: a rejection whose response carries the detail field
with the empty string as value is rejected with the generic message, not
with the carried detail, because the source defaults through the falsy
`||` test. -/
theorem startGenerationFailure_empty_detail :
  (some "" : Option String) ≠ none ∧
  (startGenerationFailure (some "") initialStoreState).2 ≠ "" ∧
  (startGenerationFailure (some "") initialStoreState).2 = genericStartFailureMessage := by
  decide

/-- C10 counterexample: a creation response that carries `generation_id`
with the empty string as value yields a session whose id is the
client-generated UUID, not the carried field, because the source defaults
through the falsy `||` test. -/
theorem startGenerationSuccess_empty_generation_id :
  (StartGenerationResponse.mk (some "")).generation_id ≠ none ∧
  (startGenerationSuccess sampleBusinessData (StartGenerationResponse.mk (some ""))
    "client-uuid" 0 initialStoreState).currentGeneration.map GenerationState.id
    = some "client-uuid" ∧
  ("client-uuid" : String) ≠ "" := by decide

/-- C3 (amended: the finalized session is prepended, not appended).
Completion is a no-op without a current session; with one, it produces a
finalized session — completed, at progress 100, stamped `completedAt`,
result attached, every step completed at progress 100, step identities
kept — puts it back as current, pushes it onto the front of the history,
and clears the generating flag. -/
theorem completeGeneration_postcondition :
  (∀ r now s, s.currentGeneration = none → completeGeneration r now s = s) ∧
  (∀ r now s g, s.currentGeneration = some g →
    ∃ done, (completeGeneration r now s).currentGeneration = some done ∧
      (completeGeneration r now s).generationHistory = done :: s.generationHistory ∧
      (completeGeneration r now s).isGenerating = false ∧
      (completeGeneration r now s).wsConnected = s.wsConnected ∧
      done.status = GenStatus.completed ∧ done.progress = 100 ∧
      done.completedAt = some now ∧ done.result = some r ∧ done.id = g.id ∧
      done.steps.map GenerationStep.id = g.steps.map GenerationStep.id ∧
      ∀ st ∈ done.steps, st.status = GenStatus.completed ∧ st.progress = 100) := by
  constructor
  · intro r now s h
    unfold completeGeneration
    rw [h]
  · intro r now s g h
    unfold completeGeneration
    rw [h]
    refine ⟨_, rfl, rfl, rfl, rfl, rfl, rfl, rfl, rfl, rfl, ?_, ?_⟩
    · rw [List.map_map]
      rfl
    · intro st hst
      rw [List.mem_map] at hst
      obtain ⟨a, ha, rfl⟩ := hst
      exact ⟨rfl, rfl⟩

/-- C3 witness: the postcondition evaluated on the concrete started store,
and the no-op case on the initial store. -/
theorem completeGeneration_postcondition_witness :
  (initialStoreState.currentGeneration = none ∧
    completeGeneration samplePayload 5 initialStoreState = initialStoreState) ∧
  (startedState.currentGeneration = some startedSession ∧
    ∃ done, (completeGeneration samplePayload 10 startedState).currentGeneration = some done ∧
      (completeGeneration samplePayload 10 startedState).generationHistory
        = done :: startedState.generationHistory ∧
      (completeGeneration samplePayload 10 startedState).isGenerating = false ∧
      (completeGeneration samplePayload 10 startedState).wsConnected
        = startedState.wsConnected ∧
      done.status = GenStatus.completed ∧ done.progress = 100 ∧
      done.completedAt = some 10 ∧ done.result = some samplePayload ∧
      done.id = startedSession.id ∧
      done.steps.map GenerationStep.id = startedSession.steps.map GenerationStep.id ∧
      ∀ st ∈ done.steps, st.status = GenStatus.completed ∧ st.progress = 100) :=
  ⟨⟨rfl, completeGeneration_postcondition.1 samplePayload 5 initialStoreState rfl⟩,
   ⟨by decide,
    completeGeneration_postcondition.2 samplePayload 10 startedState startedSession
      (by decide)⟩⟩

/-- C4 (amended: the server-supplied detail wins only when it is present
and non-empty; an absent or empty detail falls back to the generic
message). The failure path leaves `currentGeneration` and the history
unchanged and ends with `isGenerating` false. -/
theorem startGenerationFailure_spec :
  (∀ detail s,
    (startGenerationFailure detail s).1.currentGeneration = s.currentGeneration ∧
    (startGenerationFailure detail s).1.generationHistory = s.generationHistory ∧
    (startGenerationFailure detail s).1.isGenerating = false ∧
    (startGenerationFailure detail s).1.wsConnected = s.wsConnected) ∧
  (∀ d s, d ≠ "" → (startGenerationFailure (some d) s).2 = d) ∧
  (∀ s, (startGenerationFailure none s).2 = genericStartFailureMessage) ∧
  (∀ s, (startGenerationFailure (some "") s).2 = genericStartFailureMessage) := by
  refine ⟨fun detail s => ⟨rfl, rfl, rfl, rfl⟩, ?_, fun s => rfl, fun s => rfl⟩
  intro d s hd
  simp [startGenerationFailure, jsOrString, hd]

/-- C4 witness: a non-empty server detail is surfaced verbatim and the
store keeps its session while the flag clears. -/
theorem startGenerationFailure_spec_witness :
  ((startGenerationFailure (some "quota exceeded") startedState).1.currentGeneration
    = startedState.currentGeneration ∧
   (startGenerationFailure (some "quota exceeded") startedState).1.isGenerating = false) ∧
  ("quota exceeded" : String) ≠ "" ∧
  (startGenerationFailure (some "quota exceeded") startedState).2 = "quota exceeded" := by
  have h := startGenerationFailure_spec
  exact ⟨⟨(h.1 (some "quota exceeded") startedState).1,
    (h.1 (some "quota exceeded") startedState).2.2.1⟩,
    by decide, h.2.1 "quota exceeded" startedState (by decide)⟩

/-- C5. With a current session, `cancelGeneration` clears it and the
generating flag whatever the remote cancellation outcome, and the
resulting store does not depend on that outcome at all. -/
theorem cancelGeneration_local_clearing :
  (∀ s remoteOk, s.currentGeneration.isSome = true →
    (cancelGeneration remoteOk s).currentGeneration = none ∧
    (cancelGeneration remoteOk s).isGenerating = false ∧
    (cancelGeneration remoteOk s).generationHistory = s.generationHistory) ∧
  (∀ s, cancelGeneration true s = cancelGeneration false s) := by
  constructor
  · intro s remoteOk hs
    match hc : s.currentGeneration with
    | none => simp [hc] at hs
    | some g =>
      unfold cancelGeneration
      rw [hc]
      exact ⟨rfl, rfl, rfl⟩
  · intro s; rfl

/-- C5 witness: cancelling the concrete started store with the remote call
failing still clears everything, identically to the succeeding run. -/
theorem cancelGeneration_local_clearing_witness :
  startedState.currentGeneration.isSome = true ∧
  (cancelGeneration false startedState).currentGeneration = none ∧
  (cancelGeneration false startedState).isGenerating = false ∧
  cancelGeneration true startedState = cancelGeneration false startedState := by
  have h := cancelGeneration_local_clearing
  exact ⟨by decide, (h.1 startedState false (by decide)).1,
    (h.1 startedState false (by decide)).2.1, h.2 startedState⟩

/-- C7. A progress_update frame whose progress, message and timestamp are
all absent is still decoded and folded through `updateProgress`, with
progress defaulted to 0, message to the empty string, and the timestamp to
the receipt instant. -/
theorem progressUpdate_missing_fields_defaults (data : InboundFrame)
    (gid : Option String) (receivedAt : Nat) (s : StoreState)
    (ht : data.type = "progress_update") (hp : data.progress = none)
    (hm : data.message = none) (hts : data.timestamp = none) :
  handleMessage data gid receivedAt s
    = updateProgress (decodeProgressUpdate data gid receivedAt) s ∧
  (decodeProgressUpdate data gid receivedAt).progress = 0 ∧
  (decodeProgressUpdate data gid receivedAt).message = "" ∧
  (decodeProgressUpdate data gid receivedAt).timestamp = receivedAt := by
  refine ⟨?_, ?_, ?_, ?_⟩
  · unfold handleMessage
    rw [ht, if_neg (by decide), if_pos rfl]
  · simp [decodeProgressUpdate, hp, jsOrInt]
  · simp [decodeProgressUpdate, hm, jsOrString]
  · simp [decodeProgressUpdate, hts, jsOrNat]

/-- C7 witness: the bare progress_update frame on the concrete started
store. -/
theorem progressUpdate_missing_fields_defaults_witness :
  ((emptyFrame "progress_update").type = "progress_update" ∧
   (emptyFrame "progress_update").progress = none ∧
   (emptyFrame "progress_update").message = none ∧
   (emptyFrame "progress_update").timestamp = none) ∧
  handleMessage (emptyFrame "progress_update") (some "g1") 7 startedState
    = updateProgress (decodeProgressUpdate (emptyFrame "progress_update") (some "g1") 7)
        startedState ∧
  (decodeProgressUpdate (emptyFrame "progress_update") (some "g1") 7).progress = 0 ∧
  (decodeProgressUpdate (emptyFrame "progress_update") (some "g1") 7).message = "" ∧
  (decodeProgressUpdate (emptyFrame "progress_update") (some "g1") 7).timestamp = 7 := by
  have h := progressUpdate_missing_fields_defaults (emptyFrame "progress_update")
    (some "g1") 7 startedState rfl rfl rfl rfl
  exact ⟨⟨rfl, rfl, rfl, rfl⟩, h.1, h.2.1, h.2.2.1, h.2.2.2⟩

/-- Mapping a function that fixes every member of a list leaves the list
unchanged. -/
theorem map_eq_self_of_mem {α : Type} {l : List α} {f : α → α}
    (h : ∀ a ∈ l, f a = a) : l.map f = l := by
  induction l with
  | nil => rfl
  | cons a t ih =>
    simp only [List.map_cons, List.cons.injEq]
    exact ⟨h a (List.mem_cons_self a t), ih fun b hb => h b (List.mem_cons_of_mem a hb)⟩

/-- Mapping two functions that agree on every member of a list gives the
same image. -/
theorem map_congr_mem {α β : Type} {l : List α} {f g : α → β}
    (h : ∀ a ∈ l, f a = g a) : l.map f = l.map g := by
  induction l with
  | nil => rfl
  | cons a t ih =>
    simp only [List.map_cons, List.cons.injEq]
    exact ⟨h a (List.mem_cons_self a t), ih fun b hb => h b (List.mem_cons_of_mem a hb)⟩

/-- C8. Every `updateProgress` call — whatever step id the event names —
keeps the phase list at the same length with the same identities in the
same order, while updating the overall progress, and touches neither the
history nor the flag; when the step id matches none of the session phase
ids, every existing phase entry is moreover left entirely unchanged, so no
entry is added, dropped or modified. -/
theorem updateProgress_phase_isolation :
  (∀ p s g, s.currentGeneration = some g →
    ∃ g2, (updateProgress p s).currentGeneration = some g2 ∧
      g2.progress = p.progress ∧
      g2.steps.length = g.steps.length ∧
      g2.steps.map GenerationStep.id = g.steps.map GenerationStep.id ∧
      g2.id = g.id ∧ g2.status = g.status ∧
      (updateProgress p s).generationHistory = s.generationHistory ∧
      (updateProgress p s).isGenerating = s.isGenerating) ∧
  (∀ p s g, s.currentGeneration = some g → (∀ st ∈ g.steps, st.id ≠ p.step) →
    ∃ g2, (updateProgress p s).currentGeneration = some g2 ∧
      g2.steps = g.steps ∧ g2.progress = p.progress) := by
  constructor
  · intro p s g hc
    unfold updateProgress
    rw [hc]
    refine ⟨_, rfl, rfl, List.length_map _ _, ?_, rfl, rfl, rfl, rfl⟩
    rw [List.map_map]
    refine map_congr_mem fun a ha => ?_
    show (if a.id = p.step then _ else a).id = a.id
    by_cases hca : a.id = p.step
    · rw [if_pos hca]
    · rw [if_neg hca]
  · intro p s g hc hstep
    unfold updateProgress
    rw [hc]
    exact ⟨_, rfl, map_eq_self_of_mem fun st hst => if_neg (hstep st hst), rfl⟩

/-- C8 witness: the event naming the existing step `content` keeps the
four phase identities of the concrete started store, and the event naming
the unknown step `deployment` leaves the phase entries unchanged. -/
theorem updateProgress_phase_isolation_witness :
  startedState.currentGeneration = some startedSession ∧
  (∃ g2, (updateProgress reopenEvent startedState).currentGeneration = some g2 ∧
    g2.progress = reopenEvent.progress ∧
    g2.steps.length = startedSession.steps.length ∧
    g2.steps.map GenerationStep.id = startedSession.steps.map GenerationStep.id ∧
    g2.id = startedSession.id ∧ g2.status = startedSession.status ∧
    (updateProgress reopenEvent startedState).generationHistory
      = startedState.generationHistory ∧
    (updateProgress reopenEvent startedState).isGenerating
      = startedState.isGenerating) ∧
  (∀ st ∈ startedSession.steps, st.id ≠ unknownStepEvent.step) ∧
  (∃ g2, (updateProgress unknownStepEvent startedState).currentGeneration = some g2 ∧
    g2.steps = startedSession.steps ∧ g2.progress = unknownStepEvent.progress) := by
  have h := updateProgress_phase_isolation
  exact ⟨by decide, h.1 reopenEvent startedState startedSession (by decide),
    by decide,
    h.2 unknownStepEvent startedState startedSession (by decide) (by decide)⟩

/-- One store operation keeps the all-completed property of the history. -/
theorem applyOp_history_completed (op : StoreOp) (s : StoreState)
    (h : ∀ x ∈ s.generationHistory, x.status = GenStatus.completed) :
    ∀ x ∈ (applyOp op s).generationHistory, x.status = GenStatus.completed := by
  cases op with
  | startSuccess bd resp uuid now => exact h
  | startFailure detail => exact h
  | progress p =>
    simp only [applyOp]
    unfold updateProgress
    cases s.currentGeneration <;> exact h
  | complete r now =>
    simp only [applyOp]
    unfold completeGeneration
    cases s.currentGeneration with
    | none => exact h
    | some g =>
      intro x hx
      rcases List.mem_cons.mp hx with hx1 | hx2
      · rw [hx1]
      · exact h x hx2
  | fail e now =>
    simp only [applyOp]
    unfold failGeneration
    cases s.currentGeneration <;> exact h
  | cancel remoteOk =>
    simp only [applyOp]
    unfold cancelGeneration
    cases s.currentGeneration <;> exact h
  | clear => exact h
  | setWs connected => exact h

/-- A whole operation sequence keeps the all-completed property of the
history. -/
theorem applyOps_history_completed (ops : List StoreOp) (s : StoreState)
    (h : ∀ x ∈ s.generationHistory, x.status = GenStatus.completed) :
    ∀ x ∈ (applyOps ops s).generationHistory, x.status = GenStatus.completed := by
  induction ops generalizing s with
  | nil => exact h
  | cons op rest ih => exact ih (applyOp op s) (applyOp_history_completed op s h)

/-- C9. `failGeneration` never touches the history; every operation other
than `completeGeneration` leaves the history unchanged; and over any
operation sequence from the initial store, the history only ever holds
completed sessions. -/
theorem generationHistory_only_completed :
  (∀ e t s, (failGeneration e t s).generationHistory = s.generationHistory) ∧
  (∀ op s, isCompleteOp op = false →
    (applyOp op s).generationHistory = s.generationHistory) ∧
  (∀ ops, ∀ x ∈ (applyOps ops initialStoreState).generationHistory,
    x.status = GenStatus.completed) := by
  refine ⟨?_, ?_, ?_⟩
  · intro e t s
    unfold failGeneration
    cases s.currentGeneration <;> rfl
  · intro op s hop
    cases op with
    | startSuccess bd resp uuid now => rfl
    | startFailure detail => rfl
    | progress p =>
      simp only [applyOp]
      unfold updateProgress
      cases s.currentGeneration <;> rfl
    | complete r now => simp [isCompleteOp] at hop
    | fail e now =>
      simp only [applyOp]
      unfold failGeneration
      cases s.currentGeneration <;> rfl
    | cancel remoteOk =>
      simp only [applyOp]
      unfold cancelGeneration
      cases s.currentGeneration <;> rfl
    | clear => rfl
    | setWs connected => rfl
  · intro ops
    exact applyOps_history_completed ops initialStoreState (by intro x hx; cases hx)

/-- C9 witness: failing the concrete started store keeps its history, a
clear operation keeps the history, and the history reached through start
then complete holds exactly the completed session, which the theorem
certifies as completed. -/
theorem generationHistory_only_completed_witness :
  (failGeneration sampleError 3 startedState).generationHistory
    = startedState.generationHistory ∧
  isCompleteOp StoreOp.clear = false ∧
  (applyOp StoreOp.clear startedState).generationHistory
    = startedState.generationHistory ∧
  completedSession ∈ (applyOps
    [StoreOp.startSuccess sampleBusinessData sampleResponse "u1" 0,
     StoreOp.complete samplePayload 10] initialStoreState).generationHistory ∧
  completedSession.status = GenStatus.completed := by
  have h := generationHistory_only_completed
  exact ⟨h.1 sampleError 3 startedState, rfl, h.2.1 StoreOp.clear startedState rfl,
    by decide,
    h.2.2 [StoreOp.startSuccess sampleBusinessData sampleResponse "u1" 0,
      StoreOp.complete samplePayload 10] completedSession (by decide)⟩

/-- C10 (amended: the backend-assigned id wins only when the response
carries a non-empty `generation_id`; when the field is absent — or empty —
the creation still succeeds and the session takes the client-generated
UUID as its id). -/
theorem startGenerationSuccess_id_spec :
  (∀ bd resp uuid now s gid, resp.generation_id = some gid → gid ≠ "" →
    ∃ g, (startGenerationSuccess bd resp uuid now s).currentGeneration = some g ∧
      g.id = gid ∧ g.status = GenStatus.in_progress ∧ g.progress = 0 ∧
      g.steps = initialSteps) ∧
  (∀ bd resp uuid now s, resp.generation_id = none →
    ∃ g, (startGenerationSuccess bd resp uuid now s).currentGeneration = some g ∧
      g.id = uuid ∧ g.status = GenStatus.in_progress ∧ g.steps = initialSteps) := by
  constructor
  · intro bd resp uuid now s gid hgid hne
    refine ⟨_, rfl, ?_, rfl, rfl, rfl⟩
    show jsOrString resp.generation_id uuid = gid
    rw [hgid]
    simp [jsOrString, hne]
  · intro bd resp uuid now s hgid
    refine ⟨_, rfl, ?_, rfl, rfl⟩
    show jsOrString resp.generation_id uuid = uuid
    rw [hgid]
    rfl

/-- C10 witness: the backend id g1 is taken when carried non-empty, and
the client UUID u1 is taken when the field is absent. -/
theorem startGenerationSuccess_id_spec_witness :
  (sampleResponse.generation_id = some "g1" ∧ ("g1" : String) ≠ "" ∧
    ∃ g, (startGenerationSuccess sampleBusinessData sampleResponse "u1" 0
        initialStoreState).currentGeneration = some g ∧
      g.id = "g1" ∧ g.status = GenStatus.in_progress ∧ g.progress = 0 ∧
      g.steps = initialSteps) ∧
  (∃ g, (startGenerationSuccess sampleBusinessData (StartGenerationResponse.mk none)
      "u1" 0 initialStoreState).currentGeneration = some g ∧
    g.id = "u1" ∧ g.status = GenStatus.in_progress ∧ g.steps = initialSteps) :=
  ⟨⟨rfl, by decide,
    startGenerationSuccess_id_spec.1 sampleBusinessData sampleResponse "u1" 0
      initialStoreState "g1" rfl (by decide)⟩,
   startGenerationSuccess_id_spec.2 sampleBusinessData (StartGenerationResponse.mk none)
     "u1" 0 initialStoreState rfl⟩

end BuilderAi
